import Mathlib

/-!
Verification of the SmartRent-Backend account subsystem
(`account/models.py`, `account/serializers.py`).

Shallow embedding conventions:
* The durable store is a `List Account`; `save` enforces the unique
  constraints (`email`, `phone_number`) declared on the model and appends.
* Python exceptions become `Except Err`; the exception classes that the
  code raises or catches are the constructors of `Err`.
* `datetime.now()` / `date.today()` (the external clock) becomes an
  explicit `today : Date` parameter.
* `uuid.uuid4()` (external randomness) is modelled as a fresh identifier
  (`store.length`), a `Nat`; the id input of `get_object_by_id` is a raw
  string whose UUID-parse failure reproduces the `ValidationError` that
  Django's `UUIDField.to_python` raises for a malformed UUID.
* Auto-managed timestamps (`date_joined`, `date_updated`) and the image
  blob field are framework/external-managed and carry no logic in the
  claims; they are not modelled.
* Password hashing (`set_password`) is an external one-way primitive;
  modelled as an uninterpreted tagging function.
-/

deriving instance DecidableEq for Except

/-- Python `date` (also the date part of `datetime.now()`). -/
structure Date where
  year : Nat
  month : Nat
  day : Nat
deriving Repr, DecidableEq

/-- Lexicographic `<` on Python tuples `(month, day)`. -/
def pairLtB (x y : Nat × Nat) : Bool :=
  x.1 < y.1 || (x.1 == y.1 && x.2 < y.2)

/-- Python `date` comparison `a < b` (lexicographic on year, month, day). -/
def dateLtB (a b : Date) : Bool :=
  a.year < b.year ||
    (a.year == b.year &&
      (a.month < b.month || (a.month == b.month && a.day < b.day)))

/-- Python `date` comparison `a <= b`. -/
def dateLeB (a b : Date) : Bool :=
  a.year < b.year ||
    (a.year == b.year &&
      (a.month < b.month || (a.month == b.month && a.day <= b.day)))

/-- The exception classes raised or caught by the account code. -/
inductive Err where
  | valueError (msg : String)
  | typeError (msg : String)
  | validationError (msg : String)
  | integrityError (msg : String)
  | doesNotExist
  | multipleObjectsReturned
deriving Repr, DecidableEq

/-- One persisted `Account` row (fields of `account/models.py`). -/
structure Account where
  id : Nat
  first_name : String
  last_name : String
  email : String
  phone_number : String
  sex : String
  role : String
  dob : Option Date
  address : String
  is_active : Bool
  is_verified : Bool
  is_staff : Bool
  is_superuser : Bool
  password : String
deriving Repr, DecidableEq

/-- The `**extra_fields` keyword dictionary: `none` means the key is absent. -/
structure ExtraFields where
  first_name : Option String := none
  last_name : Option String := none
  phone_number : Option String := none
  sex : Option String := none
  role : Option String := none
  dob : Option Date := none
  address : Option String := none
  is_active : Option Bool := none
  is_verified : Option Bool := none
  is_staff : Option Bool := none
  is_superuser : Option Bool := none
deriving Repr, DecidableEq

/-- Python `str.strip()` on a character list. -/
def strip (cs : List Char) : List Char :=
  ((cs.dropWhile Char.isWhitespace).reverse.dropWhile Char.isWhitespace).reverse

/-- Split at the first occurrence of `c`: `splitFirst cs c = some (pre, post)`
with `cs = pre ++ c :: post` and `c ∉ pre`. -/
def splitFirst : List Char → Char → Option (List Char × List Char)
  | [], _ => none
  | x :: xs, c =>
    if x = c then some ([], xs)
    else
      match splitFirst xs c with
      | some (a, b) => some (x :: a, b)
      | none => none

/-- Python `s.rsplit(c, 1)`: split at the last occurrence of `c`. -/
def rsplitLast (cs : List Char) (c : Char) : Option (List Char × List Char) :=
  match splitFirst cs.reverse c with
  | some (postRev, preRev) => some (preRev.reverse, postRev.reverse)
  | none => none

/-- Embeds `BaseUserManager.normalize_email`: strip whitespace, split at the last
`@`, lower-case the domain part; on a string without `@` the original
argument is returned unchanged. -/
def normalize_email (email : String) : String :=
  match rsplitLast (strip email.data) '@' with
  | some (name, domain) => String.mk (name ++ '@' :: domain.map Char.toLower)
  | none => email

/-- Modelled from the spec: the password-hashing primitive
(`AbstractBaseUser.set_password`) is an external collaborator, a one-way
salted hash; modelled as an uninterpreted injective tagging function. -/
def hashPassword (pw : String) : String := "hashed:" ++ pw

/-- Embeds `self.model(email=email, **extra_fields)`: construct the row, applying
the model-field defaults for keys absent from `extra_fields`
(`CharField` defaults to the empty string, `role` to `'tenant'`,
`is_active` to `True`, `is_verified`/`is_staff`/`is_superuser` to `False`). -/
def buildAccount (freshId : Nat) (email : String) (ef : ExtraFields) : Account where
  id := freshId
  first_name := ef.first_name.getD ""
  last_name := ef.last_name.getD ""
  email := email
  phone_number := ef.phone_number.getD ""
  sex := ef.sex.getD ""
  role := ef.role.getD "tenant"
  dob := ef.dob
  address := ef.address.getD ""
  is_active := ef.is_active.getD true
  is_verified := ef.is_verified.getD false
  is_staff := ef.is_staff.getD false
  is_superuser := ef.is_superuser.getD false
  password := ""

/-- Embeds `account.set_password(password)`. -/
def set_password (a : Account) (pw : String) : Account :=
  { a with password := hashPassword pw }

/-- Embeds `account.save(using=self._db)`: the store enforces the declared unique
constraints on `email` and `phone_number` and appends the row. -/
def save (store : List Account) (a : Account) : Except Err (List Account) :=
  if store.any (fun b => b.email == a.email) then
    .error (.integrityError "UNIQUE constraint failed: account_account.email")
  else if store.any (fun b => b.phone_number == a.phone_number) then
    .error (.integrityError "UNIQUE constraint failed: account_account.phone_number")
  else
    .ok (store ++ [a])

/-- Embeds `AccountManager.create_user(email, password=None, **extra_fields)`.
`email : Option String` distinguishes the missing argument (`None`) from
the empty string; `if not email` rejects both. -/
def create_user (store : List Account) (email password : Option String)
    (ef : ExtraFields) : Except Err (Account × List Account) :=
  if email.getD "" = "" then
    .error (.valueError "Email is required")
  else
    match password with
    | none => .error (.valueError "User must have password")
    | some pw =>
      let e := normalize_email (email.getD "")
      let account := set_password (buildAccount store.length e ef) pw
      match save store account with
      | .ok st => .ok (account, st)
      | .error err => .error err

/-- Embeds `dict.setdefault(key, value)` on one `Option` slot. -/
def setdefault {α : Type} (slot : Option α) (v : α) : Option α :=
  some (slot.getD v)

/-- Embeds `AccountManager.create_superuser(email, password=None, **extra_fields)`. -/
def create_superuser (store : List Account) (email password : Option String)
    (ef : ExtraFields) : Except Err (Account × List Account) :=
  if email = none then
    .error (.typeError "Superusers must have an email.")
  else if password = none then
    .error (.typeError "Superusers must have an password.")
  else
    let ef := { ef with
      is_staff := setdefault ef.is_staff true
      is_active := setdefault ef.is_active true
      role := setdefault ef.role "admin"
      is_superuser := setdefault ef.is_superuser true
      is_verified := setdefault ef.is_verified true }
    if ef.is_staff ≠ some true then
      .error (.valueError "Superuser must have is_staff=True.")
    else if ef.is_superuser ≠ some true then
      .error (.valueError "Superuser must have is_superuser=True.")
    else
      create_user store email password ef

/-- Embeds the lookup-value conversion performed by the ORM:
`UUIDField.to_python` catches the raw `uuid.UUID` `ValueError` for a
syntactically malformed identifier and re-raises it as
`django.core.exceptions.ValidationError("'...' is not a valid UUID.")`
(Django 2.2 and later). -/
def parseId (s : String) : Except Err Nat :=
  if !s.data.isEmpty && s.data.all Char.isDigit then
    .ok (s.data.foldl (fun n c => 10 * n + (c.toNat - 48)) 0)
  else
    .error (.validationError ("'" ++ s ++ "' is not a valid UUID."))

/-- Embeds `self.get(id=id)`: exactly one match or `DoesNotExist` /
`MultipleObjectsReturned`. -/
def getQuery (store : List Account) (i : Nat) : Except Err Account :=
  match store.filter (fun a => a.id == i) with
  | [] => .error .doesNotExist
  | [a] => .ok a
  | _ => .error .multipleObjectsReturned

/-- The exception classes caught by `get_object_by_id`'s `except` clause:
`ObjectDoesNotExist, ValueError, TypeError`. -/
def caughtByGetObjectById : Err → Bool
  | .doesNotExist => true
  | .valueError _ => true
  | .typeError _ => true
  | _ => false

/-- Embeds `AccountManager.get_object_by_id(id)`: `try: return self.get(id=id)`,
returning `None` on the caught exception classes; any other exception
propagates. -/
def get_object_by_id (store : List Account) (rawId : String) :
    Except Err (Option Account) :=
  match (match parseId rawId with
    | .ok i => getQuery store i
    | .error e => .error e) with
  | .ok a => .ok (some a)
  | .error e => if caughtByGetObjectById e then .ok none else .error e

/-- Embeds `super().get_by_natural_key(email)`: exact match on the
`USERNAME_FIELD` column. -/
def getByEmailExact (store : List Account) (email : String) :
    Except Err Account :=
  match store.filter (fun a => a.email == email) with
  | [] => .error .doesNotExist
  | [a] => .ok a
  | _ => .error .multipleObjectsReturned

/-- Embeds `AccountManager.get_by_natural_key(email)`: normalize, then delegate. -/
def get_by_natural_key (store : List Account) (email : String) :
    Except Err Account :=
  getByEmailExact store (normalize_email email)

/-- Embeds the `Account.age` property: `None` without a `dob`, otherwise
`(today.year - dob.year) - ((today.month, today.day) < (dob.month, dob.day))`
with the Python bool coerced to an integer. -/
def age (a : Account) (today : Date) : Option Int :=
  match a.dob with
  | none => none
  | some b =>
      some ((today.year : Int) - (b.year : Int) -
        (if pairLtB (today.month, today.day) (b.month, b.day) then 1 else 0))

/-- Embeds `AccountProfileWriteSerializer.validate_dob`. -/
def validate_dob_profile (dob today : Date) : Except Err Date :=
  if dateLtB today dob then
    .error (.validationError "Date of birth can't be in the future")
  else
    .ok dob

/-- Embeds `AccountRegisterSerializer.validate_dob` (textually identical). -/
def validate_dob_register (dob today : Date) : Except Err Date :=
  if dateLtB today dob then
    .error (.validationError "Date of birth can't be in the future")
  else
    .ok dob

/-- The character for decimal digit `n` (`n < 10`). -/
def digitChar (n : Nat) : Char := Char.ofNat (48 + n)

/-- Numeric value of a digit character. -/
def charVal (c : Char) : Nat := c.toNat - 48

/-- Embeds the `strftime` fields `%d` / `%m`: two-digit zero-padded. -/
def pad2 (n : Nat) : List Char := [digitChar (n / 10), digitChar (n % 10)]

/-- Embeds the `strftime` field `%Y`: the four digits of the year (years in Python's
`date` range render with exactly four digits for `1000 <= year <= 9999`,
the range the round-trip theorem is stated over). -/
def year4 (y : Nat) : List Char :=
  [digitChar (y / 1000 % 10), digitChar (y / 100 % 10),
   digitChar (y / 10 % 10), digitChar (y % 10)]

/-- Embeds the `AccountProfileReadSerializer.dob` output, `value.strftime` with format string DD slash MM slash YYYY. -/
def format_dob (d : Date) : String :=
  String.mk (pad2 d.day ++ '/' :: pad2 d.month ++ '/' :: year4 d.year)

/-- Embeds `strptime`'s greedy run of digit characters. -/
def takeDigits : List Char → List Nat × List Char
  | [] => ([], [])
  | c :: cs =>
    if c.isDigit then
      ((takeDigits cs).1.cons (charVal c), (takeDigits cs).2)
    else
      ([], c :: cs)

/-- Decimal value of a digit run. -/
def digitsVal (ds : List Nat) : Nat := ds.foldl (fun a d => 10 * a + d) 0

/-- Gregorian leap-year rule used by Python's `datetime`. -/
def isLeap (y : Nat) : Bool := (y % 4 == 0 && y % 100 != 0) || (y % 400 == 0)

/-- Days in a month, as enforced by Python's `date` constructor. -/
def daysInMonth (y m : Nat) : Nat :=
  if m == 2 then (if isLeap y then 29 else 28)
  else if m == 4 || m == 6 || m == 9 || m == 11 then 30
  else 31

/-- Validity check performed by the `date` constructor after `strptime`
matches (Python's `MINYEAR`/`MAXYEAR` are 1 and 9999). -/
def validDate (y m d : Nat) : Bool :=
  1 ≤ y && y ≤ 9999 && 1 ≤ m && m ≤ 12 && 1 ≤ d && d ≤ daysInMonth y m

/-- Embeds `strptime` against one input format `%d SEP %m SEP %Y`: a one- or
two-digit day, the separator, a one- or two-digit month, the separator, a
four-digit year, end of input; then `date()` validates the result. -/
def parseWithSep (sep : Char) (cs : List Char) : Option Date :=
  let dpart := takeDigits cs
  if dpart.1.length == 0 || decide (2 < dpart.1.length) then none else
  match dpart.2 with
  | [] => none
  | s1 :: r2 =>
    if s1 ≠ sep then none else
    let mpart := takeDigits r2
    if mpart.1.length == 0 || decide (2 < mpart.1.length) then none else
    match mpart.2 with
    | [] => none
    | s2 :: r4 =>
      if s2 ≠ sep then none else
      let ypart := takeDigits r4
      if ypart.1.length ≠ 4 then none else
      match ypart.2 with
      | [] =>
        let y := digitsVal ypart.1
        let m := digitsVal mpart.1
        let d := digitsVal dpart.1
        if validDate y m d then some ⟨y, m, d⟩ else none
      | _ => none

/-- Embeds `AccountProfileWriteSerializer.dob` input parsing: DRF's `DateField`
tries `input_formats=['%d-%m-%Y', '%d/%m/%Y']` in order and returns the
first successful parse. -/
def parse_dob (s : String) : Option Date :=
  match parseWithSep '-' s.data with
  | some d => some d
  | none => parseWithSep '/' s.data

/-! ## Helper lemmas -/

theorem pairLtB_iff (x y : Nat × Nat) :
    pairLtB x y = true ↔ x.1 < y.1 ∨ (x.1 = y.1 ∧ x.2 < y.2) := by
  simp [pairLtB]

theorem dateLtB_iff (a b : Date) :
    dateLtB a b = true ↔
      a.year < b.year ∨ (a.year = b.year ∧
        (a.month < b.month ∨ (a.month = b.month ∧ a.day < b.day))) := by
  simp [dateLtB]

theorem dateLeB_iff (a b : Date) :
    dateLeB a b = true ↔
      a.year < b.year ∨ (a.year = b.year ∧
        (a.month < b.month ∨ (a.month = b.month ∧ a.day ≤ b.day))) := by
  simp [dateLeB]

/-- A successful `save` appends the row to the store. -/
theorem save_ok {store : List Account} {a : Account} {st : List Account}
    (h : save store a = .ok st) : st = store ++ [a] := by
  unfold save at h
  split at h
  · cases h
  · split at h
    · cases h
    · simpa using h.symm

/-- Successful `create_user` returns the row built from `extra_fields` with
the model defaults, appended to the store. -/
theorem create_user_ok_fields {store : List Account}
    {email password : Option String} {ef : ExtraFields} {a : Account}
    {st : List Account}
    (h : create_user store email password ef = .ok (a, st)) :
    a.first_name = ef.first_name.getD "" ∧ a.last_name = ef.last_name.getD "" ∧
    a.role = ef.role.getD "tenant" ∧ a.dob = ef.dob ∧
    a.is_active = ef.is_active.getD true ∧
    a.is_verified = ef.is_verified.getD false ∧
    a.is_staff = ef.is_staff.getD false ∧
    a.is_superuser = ef.is_superuser.getD false ∧
    a.email = normalize_email (email.getD "") ∧ st = store ++ [a] := by
  unfold create_user at h
  split at h
  · cases h
  · rcases password with _ | pw
    · cases h
    · simp only at h
      split at h
      case h_2 => cases h
      case h_1 st' heq =>
        simp only [Except.ok.injEq, Prod.mk.injEq] at h
        obtain ⟨rfl, rfl⟩ := h
        have hst := save_ok heq
        subst hst
        simp [set_password, buildAccount]

/-- When `create_superuser` succeeds, the account came from `create_user`
applied to `extra_fields` after the five `setdefault` calls, with the two
privilege checks having passed (so `is_staff` and `is_superuser` are
`some true` in the delegated dictionary). -/
theorem create_superuser_ok_delegates {store : List Account}
    {email password : Option String} {ef : ExtraFields} {a : Account}
    {st : List Account}
    (h : create_superuser store email password ef = .ok (a, st)) :
    create_user store email password
      { ef with
        is_staff := some true
        is_active := some (ef.is_active.getD true)
        role := some (ef.role.getD "admin")
        is_superuser := some true
        is_verified := some (ef.is_verified.getD true) } = .ok (a, st) := by
  unfold create_superuser at h
  split at h
  · cases h
  · split at h
    · cases h
    · dsimp only at h
      split at h
      · cases h
      · split at h
        · cases h
        · rename_i hstaff hsuper
          simp only [setdefault, ne_eq, Option.some.injEq, not_not] at hstaff hsuper
          simpa [setdefault, hstaff, hsuper] using h

/-- Claim C5: the derived age equals `(current_year - birth_year) - 1` when
`(current_month, current_day)` is lexicographically below
`(birth_month, birth_day)` and `(current_year - birth_year)` otherwise; on
2024-03-01 it is 23 for dob 2000-03-02 and 24 for dob 2000-02-28; age is
absent exactly when dob is absent. -/
theorem c5_age_derivation (a : Account) (today : Date) :
    (age a today = none ↔ a.dob = none) ∧
    (∀ b, a.dob = some b →
      age a today =
        some (if today.month < b.month ∨ (today.month = b.month ∧ today.day < b.day)
          then ((today.year : Int) - (b.year : Int)) - 1
          else (today.year : Int) - (b.year : Int))) ∧
    age (buildAccount 0 "u@x.com" {dob := some ⟨2000, 3, 2⟩}) ⟨2024, 3, 1⟩ = some 23 ∧
    age (buildAccount 0 "u@x.com" {dob := some ⟨2000, 2, 28⟩}) ⟨2024, 3, 1⟩ = some 24 := by
  refine ⟨?_, ?_, by decide, by decide⟩
  · unfold age
    rcases a.dob with _ | b <;> simp
  · intro b hb
    have hiff := pairLtB_iff (today.month, today.day) (b.month, b.day)
    simp only at hiff
    simp only [age, hb, Option.some.injEq]
    by_cases hp : today.month < b.month ∨ (today.month = b.month ∧ today.day < b.day)
    · rw [if_pos (hiff.mpr hp), if_pos hp]
    · rw [if_neg ?_, if_neg hp]
      · ring
      · intro hc
        exact hp (hiff.mp hc)

/-- Witness for C5 at dob 2000-03-02 and current date 2024-03-01. -/
theorem c5_age_derivation_witness :
    age (buildAccount 0 "u@x.com" {dob := some ⟨2000, 3, 2⟩}) ⟨2024, 3, 1⟩ =
      some (if (3 : Nat) < 3 ∨ ((3 : Nat) = 3 ∧ (1 : Nat) < 2)
        then ((2024 : Int) - (2000 : Int)) - 1
        else (2024 : Int) - (2000 : Int)) :=
  (c5_age_derivation (buildAccount 0 "u@x.com" {dob := some ⟨2000, 3, 2⟩})
    ⟨2024, 3, 1⟩).2.1 ⟨2000, 3, 2⟩ rfl

/-- Claim C7: a dob strictly later than the current date is rejected with
exactly "Date of birth can't be in the future"; a dob equal to the current
date is accepted; an accepted dob is returned unchanged (both write
serializers). -/
theorem c7_validate_dob (dob today : Date) :
    (dateLtB today dob = true →
      validate_dob_profile dob today =
          .error (.validationError "Date of birth can't be in the future") ∧
        validate_dob_register dob today =
          .error (.validationError "Date of birth can't be in the future")) ∧
    (dob = today →
      validate_dob_profile dob today = .ok dob ∧
      validate_dob_register dob today = .ok dob) ∧
    (∀ r, validate_dob_profile dob today = .ok r → r = dob) ∧
    (∀ r, validate_dob_register dob today = .ok r → r = dob) := by
  refine ⟨fun h => ?_, fun h => ?_, fun r h => ?_, fun r h => ?_⟩
  · constructor <;> simp [validate_dob_profile, validate_dob_register, h]
  · subst h
    have hlt : dateLtB dob dob = false := by
      simp [dateLtB]
    constructor <;> simp [validate_dob_profile, validate_dob_register, hlt]
  · unfold validate_dob_profile at h
    split at h
    · cases h
    · simpa using h.symm
  · unfold validate_dob_register at h
    split at h
    · cases h
    · simpa using h.symm

/-- Witness for C7: a future dob (2025-01-01 against 2024-03-01) is
rejected with the exact message, and a dob equal to today is accepted. -/
theorem c7_validate_dob_witness :
    validate_dob_profile ⟨2025, 1, 1⟩ ⟨2024, 3, 1⟩ =
        .error (.validationError "Date of birth can't be in the future") ∧
      validate_dob_profile ⟨2024, 3, 1⟩ ⟨2024, 3, 1⟩ = .ok ⟨2024, 3, 1⟩ :=
  ⟨((c7_validate_dob ⟨2025, 1, 1⟩ ⟨2024, 3, 1⟩).1 (by decide)).1,
   ((c7_validate_dob ⟨2024, 3, 1⟩ ⟨2024, 3, 1⟩).2.1 rfl).1⟩

/-- Claim C10: `create_superuser` with an empty-string email slips past its
own `is None` check, passes the superuser flag checks, and fails inside
`create_user` with "Email is required" (not the superuser-specific
TypeError); nothing is persisted. -/
theorem c10_superuser_empty_email (store : List Account) (p : String)
    (ef : ExtraFields) (h1 : ef.is_staff ≠ some false)
    (h2 : ef.is_superuser ≠ some false) :
    create_superuser store (some "") (some p) ef =
      .error (.valueError "Email is required") := by
  have hs : ef.is_staff.getD true = true := by
    rcases h : ef.is_staff with _ | b
    · rfl
    · cases b
      · exact absurd h h1
      · rfl
  have hsu : ef.is_superuser.getD true = true := by
    rcases h : ef.is_superuser with _ | b
    · rfl
    · cases b
      · exact absurd h h2
      · rfl
  simp [create_superuser, setdefault, hs, hsu, create_user]

/-- Witness for C10 at `extra_fields = {}` and password "pw". -/
theorem c10_superuser_empty_email_witness :
    create_superuser [] (some "") (some "pw") {} =
      .error (.valueError "Email is required") :=
  c10_superuser_empty_email [] "pw" {} (by decide) (by decide)

/-- Counterexample to C1: `create_superuser` with caller-supplied
`role='tenant'` and `is_verified=False` succeeds and returns an account
with exactly those values — `setdefault` does not override present keys. -/
theorem c1_counterexample :
    (create_superuser [] (some "a@b.c") (some "pw")
        {role := some "tenant", is_verified := some false,
         phone_number := some "1"}).toOption.map
      (fun p => (p.1.role, p.1.is_verified)) = some ("tenant", false) := by
  decide

/-- Claim C1 (amended): a returned superuser account always has
`is_staff = true` and `is_superuser = true`; `is_verified = true` and
`role = 'admin'` are only the `setdefault` values taken when the caller
leaves those keys unset; an explicit `is_staff=False` or
`is_superuser=False` fails with the corresponding `ValueError`. -/
theorem c1_superuser_flags (store : List Account) (e p : String)
    (ef : ExtraFields) :
    (∀ a st, create_superuser store (some e) (some p) ef = .ok (a, st) →
      a.is_staff = true ∧ a.is_superuser = true ∧
      (ef.is_verified = none → a.is_verified = true) ∧
      (ef.role = none → a.role = "admin")) ∧
    (ef.is_staff = some false →
      create_superuser store (some e) (some p) ef =
        .error (.valueError "Superuser must have is_staff=True.")) ∧
    (ef.is_staff ≠ some false → ef.is_superuser = some false →
      create_superuser store (some e) (some p) ef =
        .error (.valueError "Superuser must have is_superuser=True.")) := by
  refine ⟨fun a st h => ?_, fun h => ?_, fun h1 h2 => ?_⟩
  · have hd := create_superuser_ok_delegates h
    obtain ⟨_, _, hrole, _, _, hver, hstaff, hsuper, _, _⟩ :=
      create_user_ok_fields hd
    refine ⟨by simpa using hstaff, by simpa using hsuper, fun hv => ?_, fun hr => ?_⟩
    · simpa [hv] using hver
    · simpa [hr] using hrole
  · simp [create_superuser, setdefault, h]
  · have hs : ef.is_staff.getD true = true := by
      rcases h : ef.is_staff with _ | b
      · rfl
      · cases b
        · exact absurd h h1
        · rfl
    simp [create_superuser, setdefault, hs, h2]

/-- Witness for C1 (amended): a plain superuser creation yields both
privilege flags plus the defaulted `is_verified`/`role`; an explicit
`is_staff=False` fails. -/
theorem c1_superuser_flags_witness :
    ((set_password (buildAccount 0 "a@b.c"
        {phone_number := some "1", role := some "admin",
         is_active := some true, is_verified := some true,
         is_staff := some true, is_superuser := some true}) "pw").is_staff = true ∧
      (set_password (buildAccount 0 "a@b.c"
        {phone_number := some "1", role := some "admin",
         is_active := some true, is_verified := some true,
         is_staff := some true, is_superuser := some true}) "pw").is_superuser = true ∧
      (({phone_number := some "1"} : ExtraFields).is_verified = none →
        (set_password (buildAccount 0 "a@b.c"
          {phone_number := some "1", role := some "admin",
           is_active := some true, is_verified := some true,
           is_staff := some true, is_superuser := some true}) "pw").is_verified = true) ∧
      (({phone_number := some "1"} : ExtraFields).role = none →
        (set_password (buildAccount 0 "a@b.c"
          {phone_number := some "1", role := some "admin",
           is_active := some true, is_verified := some true,
           is_staff := some true, is_superuser := some true}) "pw").role = "admin")) ∧
    create_superuser [] (some "a@b.c") (some "pw") {is_staff := some false} =
      .error (.valueError "Superuser must have is_staff=True.") :=
  ⟨(c1_superuser_flags [] "a@b.c" "pw" {phone_number := some "1"}).1
      (set_password (buildAccount 0 "a@b.c"
        {phone_number := some "1", role := some "admin",
         is_active := some true, is_verified := some true,
         is_staff := some true, is_superuser := some true}) "pw")
      [set_password (buildAccount 0 "a@b.c"
        {phone_number := some "1", role := some "admin",
         is_active := some true, is_verified := some true,
         is_staff := some true, is_superuser := some true}) "pw"]
      (by decide),
   (c1_superuser_flags [] "a@b.c" "pw" {is_staff := some false}).2.1 (by decide)⟩

/-- Counterexample to C6: an account created through `create_user` with a
future dob (3000-01-01) is persisted without validation, and its derived
age on 2024-03-01 is -976, which is negative. -/
theorem c6_counterexample :
    (create_user [] (some "a@b.c") (some "pw")
        {dob := some ⟨3000, 1, 1⟩}).toOption.map
      (fun p => age p.1 ⟨2024, 3, 1⟩) = some (some (-976)) ∧
    (-976 : Int) < 0 := by
  refine ⟨by decide, by decide⟩

/-- Claim C6 (amended): for an account reachable through `create_user` or
`create_superuser` whose stored dob is not later than the current date,
the derived age is defined, non-negative, and equals the dob/current-date
formula. -/
theorem c6_age_nonneg (store : List Account) (email password : Option String)
    (ef : ExtraFields) (a : Account) (st : List Account) (today b : Date)
    (_hcreate : create_user store email password ef = .ok (a, st) ∨
      create_superuser store email password ef = .ok (a, st))
    (hdob : a.dob = some b) (hle : dateLeB b today = true) :
    ∃ n : Int, age a today = some n ∧ 0 ≤ n ∧
      n = (today.year : Int) - (b.year : Int) -
        (if pairLtB (today.month, today.day) (b.month, b.day) then 1 else 0) := by
  simp only [age, hdob, Option.some.injEq]
  refine ⟨_, rfl, ?_, rfl⟩
  have hle' := (dateLeB_iff b today).mp hle
  have hp := pairLtB_iff (today.month, today.day) (b.month, b.day)
  simp only at hp
  by_cases hc : pairLtB (today.month, today.day) (b.month, b.day) = true
  · have := hp.mp hc
    rw [if_pos hc]
    omega
  · rw [if_neg hc]
    omega

/-- Witness for C6 (amended) at a concrete creation (dob 2000-03-02,
current date 2024-03-01). -/
theorem c6_age_nonneg_witness :
    ∃ n : Int,
      age (set_password (buildAccount 0 "a@b.c" {dob := some ⟨2000, 3, 2⟩}) "pw")
          ⟨2024, 3, 1⟩ = some n ∧ 0 ≤ n ∧
        n = (2024 : Int) - (2000 : Int) -
          (if pairLtB (3, 1) (3, 2) then 1 else 0) :=
  c6_age_nonneg [] (some "a@b.c") (some "pw") {dob := some ⟨2000, 3, 2⟩}
    (set_password (buildAccount 0 "a@b.c" {dob := some ⟨2000, 3, 2⟩}) "pw")
    [set_password (buildAccount 0 "a@b.c" {dob := some ⟨2000, 3, 2⟩}) "pw"]
    ⟨2024, 3, 1⟩ ⟨2000, 3, 2⟩ (Or.inl (by decide)) (by decide) (by decide)

/-- Counterexample to C8: `create_user` with no name keys persists an
account whose first and last names are both the empty string — the
`blank=False` declarations are form-level only and the manager does not
validate them. -/
theorem c8_counterexample :
    (create_user [] (some "a@b.c") (some "pw") {}).toOption.map
      (fun p => (p.1.first_name, p.1.last_name)) = some ("", "") := by
  decide

/-- Claim C8 (amended): the creation paths pass `first_name`/`last_name`
through unvalidated — the created account's names are exactly the
caller-supplied `extra_fields` values, defaulting to the empty string when
absent, so accounts with empty names are reachable. -/
theorem c8_names_unvalidated (store : List Account)
    (email password : Option String) (ef : ExtraFields) (a : Account)
    (st : List Account)
    (h : create_user store email password ef = .ok (a, st) ∨
      create_superuser store email password ef = .ok (a, st)) :
    a.first_name = ef.first_name.getD "" ∧
    a.last_name = ef.last_name.getD "" := by
  rcases h with h | h
  · obtain ⟨h1, h2, _⟩ := create_user_ok_fields h
    exact ⟨h1, h2⟩
  · obtain ⟨h1, h2, _⟩ := create_user_ok_fields (create_superuser_ok_delegates h)
    exact ⟨by simpa using h1, by simpa using h2⟩

/-- Witness for C8 (amended) at a concrete creation without name keys. -/
theorem c8_names_unvalidated_witness :
    (set_password (buildAccount 0 "a@b.c" {}) "pw").first_name =
        (({} : ExtraFields).first_name.getD "") ∧
      (set_password (buildAccount 0 "a@b.c" {}) "pw").last_name =
        (({} : ExtraFields).last_name.getD "") :=
  c8_names_unvalidated [] (some "a@b.c") (some "pw") {}
    (set_password (buildAccount 0 "a@b.c" {}) "pw")
    [set_password (buildAccount 0 "a@b.c" {}) "pw"] (Or.inl (by decide))

/-- Counterexample to C2: with a non-empty email and a present password,
`create_user` still fails (with a uniqueness violation) when the email is
already stored, so success is not unconditional. -/
theorem c2_counterexample :
    (create_user [] (some "a@b.c") (some "pw") {phone_number := some "1"}).bind
      (fun p => create_user p.2 (some "a@b.c") (some "pw2")
        {phone_number := some "2"}) =
    .error (.integrityError "UNIQUE constraint failed: account_account.email") := by
  decide

/-- Claim C2 (amended): `create_user` rejects empty/missing email and
missing password with the stated `ValueError`s, persisting nothing; when
email is non-empty, password is present, and neither the normalized email
nor the phone number collides with a stored account, it returns an
account appended to the store. -/
theorem c2_create_user_validation (store : List Account) (ef : ExtraFields) :
    (∀ password, create_user store none password ef =
      .error (.valueError "Email is required")) ∧
    (∀ password, create_user store (some "") password ef =
      .error (.valueError "Email is required")) ∧
    (∀ e, e ≠ "" → create_user store (some e) none ef =
      .error (.valueError "User must have password")) ∧
    (∀ e pw, e ≠ "" →
      (∀ b ∈ store, b.email ≠ normalize_email e) →
      (∀ b ∈ store, b.phone_number ≠ ef.phone_number.getD "") →
      ∃ a, create_user store (some e) (some pw) ef = .ok (a, store ++ [a])) := by
  refine ⟨fun password => ?_, fun password => ?_, fun e he => ?_,
    fun e pw he hem hph => ?_⟩
  · simp [create_user]
  · simp [create_user]
  · simp [create_user, he]
  · refine ⟨set_password (buildAccount store.length (normalize_email e) ef) pw, ?_⟩
    have h1 : (store.any (fun b =>
        b.email == (set_password (buildAccount store.length
          (normalize_email e) ef) pw).email)) = false := by
      simp only [List.any_eq_false, set_password, buildAccount, beq_iff_eq]
      intro b hb
      exact hem b hb
    have h2 : (store.any (fun b =>
        b.phone_number == (set_password (buildAccount store.length
          (normalize_email e) ef) pw).phone_number)) = false := by
      simp only [List.any_eq_false, set_password, buildAccount, beq_iff_eq]
      intro b hb
      exact hph b hb
    simp [create_user, he, save, h1, h2]

/-- Witness for C2 (amended): the three failure modes and one successful
creation at concrete inputs. -/
theorem c2_create_user_validation_witness :
    create_user [] none (some "pw") {} =
        .error (.valueError "Email is required") ∧
      create_user [] (some "") (some "pw") {} =
        .error (.valueError "Email is required") ∧
      create_user [] (some "a@b.c") none {} =
        .error (.valueError "User must have password") ∧
      ∃ a, create_user [] (some "a@b.c") (some "pw") {} = .ok (a, [] ++ [a]) :=
  ⟨(c2_create_user_validation [] {}).1 (some "pw"),
   (c2_create_user_validation [] {}).2.1 (some "pw"),
   (c2_create_user_validation [] {}).2.2.1 "a@b.c" (by decide),
   (c2_create_user_validation [] {}).2.2.2 "a@b.c" "pw" (by decide)
     (by simp) (by simp)⟩

/-- Counterexample to C3: two creation emails differing only in the case
of the local part ("A@x.com" vs "a@x.com") do NOT collide — the second
call succeeds and the store ends with two accounts, because
`normalize_email` lower-cases only the domain part. -/
theorem c3_counterexample :
    ((create_user [] (some "A@x.com") (some "pw") {phone_number := some "1"}).bind
      (fun p => create_user p.2 (some "a@x.com") (some "pw")
        {phone_number := some "2"})).toOption.map
      (fun p => (p.1.email, p.2.length)) = some ("a@x.com", 2) := by
  decide

/-- Helper: `dropWhile` is the identity when no element satisfies the predicate. -/
theorem dropWhile_eq_self_of_none {α : Type} (p : α → Bool) (cs : List α)
    (h : ∀ c ∈ cs, p c = false) : cs.dropWhile p = cs := by
  cases cs with
  | nil => rfl
  | cons c cs => simp [List.dropWhile_cons, h c (by simp)]

/-- Helper: `strip` is the identity on whitespace-free character lists. -/
theorem strip_eq_self {cs : List Char}
    (h : ∀ c ∈ cs, c.isWhitespace = false) : strip cs = cs := by
  unfold strip
  rw [dropWhile_eq_self_of_none _ _ h,
    dropWhile_eq_self_of_none _ _ (fun c hc => h c (by simpa using hc)),
    List.reverse_reverse]

/-- Helper: `splitFirst` recovers the decomposition at the first occurrence. -/
theorem splitFirst_append {a b : List Char} {c : Char} (h : c ∉ a) :
    splitFirst (a ++ c :: b) c = some (a, b) := by
  induction a with
  | nil => simp [splitFirst]
  | cons x xs ih =>
    have hx : ¬x = c := fun hh => h (hh ▸ List.mem_cons_self x xs)
    simp [splitFirst, hx, ih (fun hm => h (List.mem_cons_of_mem _ hm))]

/-- Helper: `rsplitLast` splits an email shape at its last `@`. -/
theorem rsplitLast_append {l d : List Char} (h : '@' ∉ d) :
    rsplitLast (l ++ '@' :: d) '@' = some (l, d) := by
  unfold rsplitLast
  rw [show (l ++ '@' :: d).reverse = d.reverse ++ '@' :: l.reverse by simp,
    splitFirst_append (by simpa using h)]
  simp

/-- Claim C3 (amended): normalization lower-cases exactly the part after
the last `@`, so two whitespace-free emails with the same local part and
domains equal up to letter case get the same canonical stored key and the
second creation fails with the email uniqueness violation; the same
normalization is applied on natural-key lookup. (Local-part case
differences are preserved and create distinct accounts.) -/
theorem c3_domain_case_collision :
    (∀ l d1 d2 : List Char, '@' ∉ d1 → '@' ∉ d2 →
      (∀ c ∈ l, c.isWhitespace = false) →
      (∀ c ∈ d1, c.isWhitespace = false) →
      (∀ c ∈ d2, c.isWhitespace = false) →
      d1.map Char.toLower = d2.map Char.toLower →
      normalize_email (String.mk (l ++ '@' :: d1)) =
        normalize_email (String.mk (l ++ '@' :: d2))) ∧
    (∀ (store : List Account) (e1 e2 p1 p2 : String) (ef1 ef2 : ExtraFields)
        (a : Account) (st : List Account),
      e2 ≠ "" → normalize_email e1 = normalize_email e2 →
      create_user store (some e1) (some p1) ef1 = .ok (a, st) →
      create_user st (some e2) (some p2) ef2 =
        .error (.integrityError "UNIQUE constraint failed: account_account.email")) ∧
    (∀ (store : List Account) (e1 e2 : String),
      normalize_email e1 = normalize_email e2 →
      get_by_natural_key store e1 = get_by_natural_key store e2) := by
  refine ⟨fun l d1 d2 h1 h2 hwl hw1 hw2 hmap => ?_,
    fun store e1 e2 p1 p2 ef1 ef2 a st hne heq hcreate => ?_,
    fun store e1 e2 heq => ?_⟩
  · have hall1 : ∀ c ∈ l ++ '@' :: d1, c.isWhitespace = false := by
      intro c hc
      rcases List.mem_append.mp hc with h | h
      · exact hwl c h
      · rcases List.mem_cons.mp h with rfl | h
        · decide
        · exact hw1 c h
    have hall2 : ∀ c ∈ l ++ '@' :: d2, c.isWhitespace = false := by
      intro c hc
      rcases List.mem_append.mp hc with h | h
      · exact hwl c h
      · rcases List.mem_cons.mp h with rfl | h
        · decide
        · exact hw2 c h
    unfold normalize_email
    simp only [String.data]
    rw [strip_eq_self hall1, strip_eq_self hall2,
      rsplitLast_append h1, rsplitLast_append h2]
    simp [hmap]
  · obtain ⟨_, _, _, _, _, _, _, _, hemail, hst⟩ := create_user_ok_fields hcreate
    subst hst
    have hmem : ((store ++ [a]).any (fun b =>
        b.email == (set_password (buildAccount (store ++ [a]).length
          (normalize_email e2) ef2) p2).email)) = true := by
      simp only [List.any_eq_true, set_password, buildAccount, beq_iff_eq]
      exact ⟨a, by simp, by simpa [heq] using hemail⟩
    have hsv : save (store ++ [a]) (set_password
        (buildAccount (store ++ [a]).length (normalize_email e2) ef2) p2) =
        .error (.integrityError "UNIQUE constraint failed: account_account.email") := by
      unfold save
      rw [if_pos hmem]
    simp only [List.length_append, List.length_cons, List.length_nil] at hsv
    simp [create_user, hne, hsv]
  · unfold get_by_natural_key
    rw [heq]

/-- Witness for C3 (amended): "a@X.c" and "a@x.c" normalize identically;
after creating the first, creating the second fails with the email
uniqueness violation; lookup treats "A@B.c" and "A@b.C" alike. -/
theorem c3_domain_case_collision_witness :
    normalize_email (String.mk (['a'] ++ '@' :: ['X', '.', 'c'])) =
        normalize_email (String.mk (['a'] ++ '@' :: ['x', '.', 'c'])) ∧
      create_user [set_password (buildAccount 0 (normalize_email "a@X.c")
          {phone_number := some "1"}) "p"] (some "a@x.c") (some "q")
          {phone_number := some "2"} =
        .error (.integrityError "UNIQUE constraint failed: account_account.email") ∧
      get_by_natural_key [] "A@B.c" = get_by_natural_key [] "A@b.C" :=
  ⟨c3_domain_case_collision.1 ['a'] ['X', '.', 'c'] ['x', '.', 'c']
      (by decide) (by decide) (by decide) (by decide) (by decide) (by decide),
   c3_domain_case_collision.2.1 [] "a@X.c" "a@x.c" "p" "q"
      {phone_number := some "1"} {phone_number := some "2"}
      (set_password (buildAccount 0 (normalize_email "a@X.c")
        {phone_number := some "1"}) "p")
      [set_password (buildAccount 0 (normalize_email "a@X.c")
        {phone_number := some "1"}) "p"]
      (by decide) (by decide) (by decide),
   c3_domain_case_collision.2.2 [] "A@B.c" "A@b.C" (by decide)⟩

/-- Claim C4 (code bug): on a malformed identifier the lookup RAISES
instead of returning `None` — `UUIDField.to_python` re-raises the
malformed-UUID failure as a `ValidationError`, which the
`except (ObjectDoesNotExist, ValueError, TypeError)` clause does not
catch, contradicting the method's own docstring ("otherwise None if
found or invalid ID"). An absent well-formed identifier still returns
`None` and a matching one returns the account. -/
theorem c4_malformed_id_raises :
    get_object_by_id [set_password (buildAccount 0 "a@b.c" {}) "pw"]
        "not-a-uuid" =
      .error (.validationError "'not-a-uuid' is not a valid UUID.") ∧
    caughtByGetObjectById
      (.validationError "'not-a-uuid' is not a valid UUID.") = false ∧
    get_object_by_id [set_password (buildAccount 0 "a@b.c" {}) "pw"] "5" =
      .ok none ∧
    get_object_by_id [set_password (buildAccount 0 "a@b.c" {}) "pw"] "0" =
      .ok (some (set_password (buildAccount 0 "a@b.c" {}) "pw")) := by
  refine ⟨by decide, by decide, by decide, by decide⟩

/-- Digit characters are digits. -/
theorem digitChar_isDigit : ∀ n, n < 10 → (digitChar n).isDigit = true := by
  decide

/-- Helper: `charVal` inverts `digitChar` on digit values. -/
theorem charVal_digitChar : ∀ n, n < 10 → charVal (digitChar n) = n := by
  decide

/-- Helper: `takeDigits` consumes a two-digit block up to a non-digit. -/
theorem takeDigits_pad2 (n : Nat) (hn : n < 100) (c : Char)
    (rest : List Char) (hc : c.isDigit = false) :
    takeDigits (pad2 n ++ c :: rest) = ([n / 10, n % 10], c :: rest) := by
  have h1 := digitChar_isDigit (n / 10) (by omega)
  have h2 := digitChar_isDigit (n % 10) (by omega)
  simp [pad2, takeDigits, h1, h2, hc,
    charVal_digitChar (n / 10) (by omega), charVal_digitChar (n % 10) (by omega)]

/-- Helper: `takeDigits` consumes the whole four-digit year block. -/
theorem takeDigits_year4 (y : Nat) :
    takeDigits (year4 y) =
      ([y / 1000 % 10, y / 100 % 10, y / 10 % 10, y % 10], []) := by
  have h1 := digitChar_isDigit (y / 1000 % 10) (by omega)
  have h2 := digitChar_isDigit (y / 100 % 10) (by omega)
  have h3 := digitChar_isDigit (y / 10 % 10) (by omega)
  have h4 := digitChar_isDigit (y % 10) (by omega)
  simp [year4, takeDigits, h1, h2, h3, h4,
    charVal_digitChar (y / 1000 % 10) (by omega),
    charVal_digitChar (y / 100 % 10) (by omega),
    charVal_digitChar (y / 10 % 10) (by omega),
    charVal_digitChar (y % 10) (by omega)]

/-- Bounds extracted from a valid date. -/
theorem validDate_bounds {y m d : Nat} (h : validDate y m d = true) :
    1 ≤ y ∧ y ≤ 9999 ∧ 1 ≤ m ∧ m ≤ 12 ∧ 1 ≤ d ∧ d ≤ 31 := by
  have hdm : daysInMonth y m ≤ 31 := by
    unfold daysInMonth
    split
    · split <;> omega
    · split <;> omega
  simp only [validDate, Bool.and_eq_true, decide_eq_true_eq] at h
  omega

/-- Parsing the canonical `DD/MM/YYYY` rendering with the slash format
recovers the date. -/
theorem parseWithSep_roundtrip (y m d : Nat) (hv : validDate y m d = true) :
    parseWithSep '/' (pad2 d ++ '/' :: pad2 m ++ '/' :: year4 y) =
      some ⟨y, m, d⟩ := by
  obtain ⟨hy1, hy2, hm1, hm2, hd1, hd2⟩ := validDate_bounds hv
  have e1 : takeDigits (pad2 d ++ '/' :: (pad2 m ++ '/' :: year4 y)) =
      ([d / 10, d % 10], '/' :: (pad2 m ++ '/' :: year4 y)) :=
    takeDigits_pad2 d (by omega) '/' _ (by decide)
  have e2 : takeDigits (pad2 m ++ '/' :: year4 y) =
      ([m / 10, m % 10], '/' :: year4 y) :=
    takeDigits_pad2 m (by omega) '/' _ (by decide)
  have e3 := takeDigits_year4 y
  have ed : digitsVal [d / 10, d % 10] = d := by
    simp [digitsVal]
    omega
  have em : digitsVal [m / 10, m % 10] = m := by
    simp [digitsVal]
    omega
  have ey : digitsVal [y / 1000 % 10, y / 100 % 10, y / 10 % 10, y % 10] = y := by
    simp [digitsVal]
    omega
  unfold parseWithSep
  simp only [List.append_assoc, List.cons_append]
  rw [e1]
  simp only [List.length_cons, List.length_nil]
  rw [e2]
  simp only [List.length_cons, List.length_nil]
  rw [e3]
  simp [ed, em, ey, hv]

/-- Parsing the canonical slash rendering with the dash format fails at
the first separator. -/
theorem parseWithSep_dash_fails (y m d : Nat) (hd : d < 100) :
    parseWithSep '-' (pad2 d ++ '/' :: pad2 m ++ '/' :: year4 y) = none := by
  have e1 : takeDigits (pad2 d ++ '/' :: (pad2 m ++ '/' :: year4 y)) =
      ([d / 10, d % 10], '/' :: (pad2 m ++ '/' :: year4 y)) :=
    takeDigits_pad2 d hd '/' _ (by decide)
  unfold parseWithSep
  simp only [List.append_assoc, List.cons_append]
  rw [e1]
  simp

/-- Claim C9: for every valid four-digit-year date, formatting dob with
the Read representation (`DD/MM/YYYY`) and re-parsing it through the
write field's input formats (`%d-%m-%Y` then `%d/%m/%Y`) yields the
original date; the slash format is the one that matches. -/
theorem c9_dob_roundtrip (d : Date)
    (hv : validDate d.year d.month d.day = true) (_hy : 1000 ≤ d.year) :
    parse_dob (format_dob d) = some d ∧
    parseWithSep '/' (format_dob d).data = some d := by
  have hb := validDate_bounds hv
  have hslash := parseWithSep_roundtrip d.year d.month d.day hv
  have hdash := parseWithSep_dash_fails d.year d.month d.day (by omega)
  have hdata : (format_dob d).data =
      pad2 d.day ++ '/' :: pad2 d.month ++ '/' :: year4 d.year := rfl
  constructor
  · unfold parse_dob
    rw [hdata, hdash, hslash]
  · rw [hdata, hslash]

/-- Witness for C9 at the date 2024-02-29 (a leap day). -/
theorem c9_dob_roundtrip_witness :
    parse_dob (format_dob ⟨2024, 2, 29⟩) = some ⟨2024, 2, 29⟩ ∧
    parseWithSep '/' (format_dob ⟨2024, 2, 29⟩).data = some ⟨2024, 2, 29⟩ :=
  c9_dob_roundtrip ⟨2024, 2, 29⟩ (by decide) (by decide)
